import Mathlib

/-!
Verification of the GigLink freelance-marketplace core against its sources
(`src/script.js` and `src/unnamed/part_000`).  The four near-duplicate app
variants share one pricing engine (Section 1 of every variant); the job /
notification / payment flow modelled below is the one of
`src/unnamed/part_000`, the only variant that implements the full payment
confirmation flow (`handleAcceptJob` lines 594-607, `confirmPayment` lines
614-637, `myMessages` line 640).  JavaScript numbers are modelled as `ℚ`,
`Date.now()` timestamps as an explicit `now : Nat` argument, and absent
(`undefined`) record fields as `Option`.
-/

namespace GigLink

/-- A service object as produced by `ServiceFactory.createService`
(`script.js` lines 20-29 / `part_000` lines 20-29). -/
structure Service where
  name : String
  baseRate : ℚ
  icon : String
deriving DecidableEq

/-- `ServiceFactory.createService(type)`: the `switch` over the service type
(`part_000` lines 21-28). -/
def createService (type : String) : Service :=
  if type = "web" then { name := "Web Development", baseRate := 50, icon := "💻" }
  else if type = "design" then { name := "Graphic Design", baseRate := 40, icon := "🎨" }
  else if type = "content" then { name := "Content Writing", baseRate := 30, icon := "✍️" }
  else { name := "General Service", baseRate := 20, icon := "🔧" }

/-- `LowComplexityStrategy.calculate` (`part_000` line 10). -/
def lowCalculate (baseRate hours : ℚ) : ℚ := baseRate * hours * 1

/-- `MediumComplexityStrategy.calculate` (`part_000` line 13): multiplier 1.5. -/
def mediumCalculate (baseRate hours : ℚ) : ℚ := baseRate * hours * (3 / 2)

/-- `HighComplexityStrategy.calculate` (`part_000` line 16): multiplier 2.5. -/
def highCalculate (baseRate hours : ℚ) : ℚ := baseRate * hours * (5 / 2)

/-- The price computed by the `ClientPage` pricing effect (`part_000` lines
401-405): pick the strategy by the complexity string (any string other than
`low` and `medium` selects the high strategy, mirroring the ternary chain)
and apply it to the factory's base rate and the hours. -/
def clientPrice (serviceType complexity : String) (hours : ℚ) : ℚ :=
  let serviceObj := createService serviceType
  if complexity = "low" then lowCalculate serviceObj.baseRate hours
  else if complexity = "medium" then mediumCalculate serviceObj.baseRate hours
  else highCalculate serviceObj.baseRate hours

/-- The base-rate lookup table stated by the spec (§4.1): web=50, design=40,
content=30, default=20. -/
def specBaseRate (serviceType : String) : ℚ :=
  if serviceType = "web" then 50
  else if serviceType = "design" then 40
  else if serviceType = "content" then 30
  else 20

/-- The complexity-multiplier table stated by the spec (§4.1): low=1.0,
medium=1.5, high=2.5, and no entry for any other complexity. -/
def specMultiplier (complexity : String) : Option ℚ :=
  if complexity = "low" then some 1
  else if complexity = "medium" then some (3 / 2)
  else if complexity = "high" then some (5 / 2)
  else none

/-- The multiplier actually selected by the code's ternary chain: every
complexity other than `low` and `medium` gets the high multiplier 2.5. -/
def clientMult (complexity : String) : ℚ :=
  if complexity = "low" then 1
  else if complexity = "medium" then 3 / 2
  else 5 / 2

/-- The two failure modes the spec (§4.1) assigns to the pricing engine. -/
inductive ValidationError where
  | nonPositiveHours
  | unrecognizedComplexity
deriving DecidableEq

/-- Modelled from the spec: the §4.1 contract `quote(serviceType, complexity,
hours)` with its claimed failure modes — reject `hours ≤ 0` and an
unrecognized complexity with a `ValidationError`, otherwise return
`baseRate × hours × multiplier`.  This definition follows the spec's words
(no such validation exists in the source) and is compared against
`clientPrice`, the definition taken from the source. -/
def specQuote (serviceType complexity : String) (hours : ℚ) :
    Except ValidationError ℚ :=
  if hours ≤ 0 then Except.error ValidationError.nonPositiveHours
  else
    match specMultiplier complexity with
    | none => Except.error ValidationError.unrecognizedComplexity
    | some m => Except.ok (specBaseRate serviceType * hours * m)

/-- A logged-in user profile, restricted to the fields the job/notification
flow reads (`name`, `username`, `phone`). -/
structure User where
  name : String
  username : String
  phone : String
deriving DecidableEq

/-- A job record as created by `ClientPage.handleBooking` (`part_000` lines
410-413) and mutated by `handleAcceptJob`: `acceptedBy` is absent (`none`)
until a freelancer accepts. -/
structure Job where
  id : Nat
  postedBy : String
  service : String
  total : ℚ
  description : String
  status : String
  acceptedBy : Option String
deriving DecidableEq

/-- A mailbox entry.  `handleAcceptJob` creates entries with every field
present; the freelancer notification created by `confirmPayment` (`part_000`
lines 621-630) omits `isPaid`, `freelancerPhone`, `amount`, `jobId`,
`jobTitle` and `freelancerName`, modelled as `none` (JS `undefined`). -/
structure Message where
  id : Nat
  toUser : Option String
  title : String
  text : String
  isActionable : Bool
  isPaid : Option Bool
  freelancerPhone : Option String
  amount : Option ℚ
  jobId : Option Nat
  jobTitle : Option String
  freelancerName : Option String
deriving DecidableEq

/-- The `App` component's persistent state: the `jobs` and `messages` React
state arrays (`part_000` lines 553-554). -/
structure AppState where
  jobs : List Job
  messages : List Message
deriving DecidableEq

/-- The body of the job-accepted notification (`part_000` line 601). -/
def acceptText (freelancerName service : String) : String :=
  "Freelancer " ++ freelancerName ++ " has accepted your \"" ++ service
    ++ "\" project."

/-- The per-job update `handleAcceptJob` maps over the jobs array
(`part_000` line 595): any job whose id matches is set to `Accepted` with
`acceptedBy` overwritten, with no check of its current status. -/
def acceptUpdate (jobId : Nat) (freelancerUser : User) (job : Job) : Job :=
  if job.id = jobId then
    { job with status := "Accepted", acceptedBy := some freelancerUser.name }
  else job

/-- The notification object `handleAcceptJob` builds for the job's poster
(`part_000` lines 599-604). -/
def acceptNotif (acceptedJob : Job) (freelancerUser : User) (now : Nat) :
    Message :=
  { id := now
    toUser := some acceptedJob.postedBy
    title := "Job Accepted!"
    text := acceptText freelancerUser.name acceptedJob.service
    isActionable := true
    isPaid := some false
    freelancerPhone := some freelancerUser.phone
    amount := some acceptedJob.total
    jobId := some acceptedJob.id
    jobTitle := some acceptedJob.service
    freelancerName := some freelancerUser.name }

/-- `handleAcceptJob(jobId, freelancerUser)` (`part_000` lines 594-607):
map the unconditional `acceptUpdate` over the jobs, look the job up in the
ORIGINAL array, and prepend the poster's notification.  When no job has the
id, the JS dereferences `acceptedJob.postedBy` on `undefined` and throws a
`TypeError`; that crash is modelled as `none` (the jobs update computed
before the crash equals the original array, since the map matched
nothing). -/
def handleAcceptJob (st : AppState) (jobId : Nat) (freelancerUser : User)
    (now : Nat) : Option AppState :=
  let updatedJobs := st.jobs.map (acceptUpdate jobId freelancerUser)
  match st.jobs.find? (fun job => job.id == jobId) with
  | none => none
  | some acceptedJob =>
      some { jobs := updatedJobs
             messages := acceptNotif acceptedJob freelancerUser now
               :: st.messages }

/-- The demo client. -/
def carol : User := { name := "Carol Chen", username := "carol", phone := "60111" }

/-- The first demo freelancer. -/
def fiona : User := { name := "Fiona", username := "fiona", phone := "60222" }

/-- The second demo freelancer. -/
def gary : User := { name := "Gary", username := "gary", phone := "60333" }

/-- A content-writing job posted by carol (30 × 5 × 2.5 = 375), still open. -/
def contentJob : Job :=
  { id := 1
    postedBy := "carol"
    service := "Content Writing"
    total := 375
    description := "brochure"
    status := "Open"
    acceptedBy := none }

/-- App state holding the single open job and an empty mailbox. -/
def stOpen : AppState := { jobs := [contentJob], messages := [] }

/-- Model of `Number.prototype.toFixed(2)` for the nonnegative exact-cent
amounts this app produces (every price is an integer multiple of 1/2). -/
def toFixed2 (q : ℚ) : String :=
  let r := q * 100 + 1 / 2
  let cents : Int := r.num / (r.den : Int)
  let whole := cents / 100
  let frac := (cents % 100).natAbs
  toString whole ++ "."
    ++ (if frac < 10 then "0" ++ toString frac else toString frac)

/-- The body of the freelancer's payment notification (`part_000` line
628); `undefined` job titles print as the string `"undefined"` in JS
template literals. -/
def paymentText (amount : ℚ) (jobTitle : Option String) : String :=
  "You have received a payment of RM " ++ toFixed2 amount
    ++ " for the project: " ++ jobTitle.getD "undefined" ++ "."

/-- The per-message update `confirmPayment` maps over the messages array
(`part_000` line 618): flip `isPaid` on every message whose id matches. -/
def updatePaid (msgId : Nat) (m : Message) : Message :=
  if m.id = msgId then { m with isPaid := some true } else m

/-- The freelancer notification object `confirmPayment` builds (`part_000`
lines 621-630): addressed to the freelancer's display name, non-actionable,
with all remaining fields absent. -/
def paymentNotif (msg : Message) (now : Nat) (amt : ℚ) : Message :=
  { id := now
    toUser := msg.freelancerName
    title := "Payment Received! 💰"
    text := paymentText amt msg.jobTitle
    isActionable := false
    isPaid := none
    freelancerPhone := none
    amount := none
    jobId := none
    jobTitle := none
    freelancerName := none }

/-- `confirmPayment` (`part_000` lines 614-637): mark the originating
message paid and prepend the freelancer notification.  The jobs array is
never touched.  Reading `msg.amount.toFixed(2)` on a message without an
`amount` would throw a `TypeError`, modelled as `none`. -/
def confirmPayment (st : AppState) (msg : Message) (now : Nat) :
    Option AppState :=
  match msg.amount with
  | none => none
  | some amt =>
      let updatedMessages := st.messages.map (updatePaid msg.id)
      some { jobs := st.jobs
             messages := paymentNotif msg now amt :: updatedMessages }

/-- The inbox filter `myMessages` (`part_000` line 640): a message is shown
to the logged-in user when its `toUser` equals the user's username OR the
user's display name. -/
def myMessages (u : User) (messages : List Message) : List Message :=
  messages.filter fun m =>
    decide (m.toUser = some u.username) || decide (m.toUser = some u.name)

/-- Recognizer for the payment notifications `confirmPayment` emits. -/
def isPaymentReceived (m : Message) : Bool :=
  m.title == "Payment Received! 💰"

/-- The accepted version of `contentJob`. -/
def acceptedContentJob : Job :=
  { contentJob with status := "Accepted", acceptedBy := some "Fiona" }

/-- The actionable notification carol receives when Fiona accepts job 1. -/
def acceptMsg : Message := acceptNotif acceptedContentJob fiona 10

/-- The demo state right after Fiona accepted carol's job. -/
def paidState0 : AppState :=
  { jobs := [acceptedContentJob], messages := [acceptMsg] }

/-- A pre-existing non-actionable notification in carol's mailbox. -/
def oldNotif : Message :=
  { id := 5
    toUser := some "carol"
    title := "Welcome"
    text := "Welcome to GigLink"
    isActionable := false
    isPaid := none
    freelancerPhone := none
    amount := none
    jobId := none
    jobTitle := none
    freelancerName := none }

/-- State used for the `inbox_newest_first_after_accept` witness: carol's
open job plus one old notification with id 5. -/
def stWithOld : AppState := { jobs := [contentJob], messages := [oldNotif] }

/-- A notification addressed to the display name "Fiona" — not to any
username. -/
def notifByName : Message :=
  { id := 7
    toUser := some "Fiona"
    title := "Payment Received! 💰"
    text := "You have received a payment of RM 375.00 for the project: Content Writing."
    isActionable := false
    isPaid := none
    freelancerPhone := none
    amount := none
    jobId := none
    jobTitle := none
    freelancerName := none }

lemma createService_baseRate (t : String) :
    (createService t).baseRate = specBaseRate t := by
  unfold createService specBaseRate
  split_ifs <;> rfl

lemma clientPrice_eq (t c : String) (h : ℚ) :
    clientPrice t c h = specBaseRate t * h * clientMult c := by
  simp only [clientPrice, lowCalculate, mediumCalculate, highCalculate,
    createService_baseRate, clientMult]
  split_ifs <;> ring

lemma specBaseRate_pos (t : String) : 0 < specBaseRate t := by
  unfold specBaseRate
  split_ifs <;> norm_num

lemma clientMult_pos (c : String) : 0 < clientMult c := by
  unfold clientMult
  split_ifs <;> norm_num

lemma clientMult_of_specMultiplier {c : String} {m : ℚ}
    (hm : specMultiplier c = some m) : clientMult c = m := by
  unfold specMultiplier at hm
  unfold clientMult
  split_ifs at hm with h1 h2 h3 <;> simp_all

/-- C4: for every serviceType, every complexity in {low, medium, high} and
every hours, the quoted price is `baseRate(serviceType) × hours ×
multiplier(complexity)` with the tables web=50, design=40, content=30,
default=20 and low=1.0, medium=1.5, high=2.5; in particular web, medium,
10 hours is priced 750. -/
theorem quote_price_formula :
    (∀ (st c : String) (h m : ℚ), specMultiplier c = some m →
      clientPrice st c h = specBaseRate st * h * m)
    ∧ clientPrice "web" "medium" 10 = 750 := by
  constructor
  · intro st c h m hm
    rw [clientPrice_eq, clientMult_of_specMultiplier hm]
  · rw [clientPrice_eq]
    rw [show specBaseRate "web" = 50 from rfl,
      show clientMult "medium" = 3 / 2 from rfl]
    norm_num

/-- Witness for `quote_price_formula`: the multiplier hypothesis discharged
at the concrete input web / medium / 10 hours. -/
theorem quote_price_formula_witness :
    specMultiplier "medium" = some (3 / 2)
    ∧ clientPrice "web" "medium" 10 = specBaseRate "web" * 10 * (3 / 2) :=
  ⟨rfl, quote_price_formula.1 "web" "medium" 10 (3 / 2) rfl⟩

/-- C5: for every fixed serviceType and hours in [1,100], the quoted price is
strictly increasing in hours for each fixed recognized complexity, and
strictly increasing across low < medium < high for fixed hours. -/
theorem quote_price_monotone :
    (∀ (st c : String) (h₁ h₂ : ℚ),
      (c = "low" ∨ c = "medium" ∨ c = "high") →
      1 ≤ h₁ → h₁ < h₂ → h₂ ≤ 100 →
      clientPrice st c h₁ < clientPrice st c h₂)
    ∧ (∀ (st : String) (h : ℚ), 1 ≤ h → h ≤ 100 →
      clientPrice st "low" h < clientPrice st "medium" h
      ∧ clientPrice st "medium" h < clientPrice st "high" h) := by
  constructor
  · intro st c h₁ h₂ _ _ hlt _
    rw [clientPrice_eq, clientPrice_eq]
    exact mul_lt_mul_of_pos_right
      (mul_lt_mul_of_pos_left hlt (specBaseRate_pos st)) (clientMult_pos c)
  · intro st h h1 _
    have hbh : 0 < specBaseRate st * h :=
      mul_pos (specBaseRate_pos st) (lt_of_lt_of_le one_pos h1)
    rw [clientPrice_eq, clientPrice_eq, clientPrice_eq]
    rw [show clientMult "low" = 1 from rfl,
      show clientMult "medium" = 3 / 2 from rfl,
      show clientMult "high" = 5 / 2 from rfl]
    constructor
    · exact mul_lt_mul_of_pos_left (by norm_num : (1 : ℚ) < 3 / 2) hbh
    · exact mul_lt_mul_of_pos_left (by norm_num : (3 / 2 : ℚ) < 5 / 2) hbh

/-- Witness for `quote_price_monotone`: both monotonicity statements
exercised at concrete inputs inside [1,100]. -/
theorem quote_price_monotone_witness :
    ((("low" : String) = "low" ∨ ("low" : String) = "medium" ∨ ("low" : String) = "high")
      ∧ (1 : ℚ) ≤ 2 ∧ (2 : ℚ) < 3 ∧ (3 : ℚ) ≤ 100
      ∧ clientPrice "web" "low" 2 < clientPrice "web" "low" 3)
    ∧ ((1 : ℚ) ≤ 10 ∧ (10 : ℚ) ≤ 100
      ∧ clientPrice "design" "low" 10 < clientPrice "design" "medium" 10
      ∧ clientPrice "design" "medium" 10 < clientPrice "design" "high" 10) :=
  ⟨⟨Or.inl rfl, by norm_num, by norm_num, by norm_num,
      quote_price_monotone.1 "web" "low" 2 3 (Or.inl rfl)
        (by norm_num) (by norm_num) (by norm_num)⟩,
    ⟨by norm_num, by norm_num,
      (quote_price_monotone.2 "design" 10 (by norm_num) (by norm_num)).1,
      (quote_price_monotone.2 "design" 10 (by norm_num) (by norm_num)).2⟩⟩

/-- C6 counterexample: the spec's pricing contract rejects an unrecognized
complexity and non-positive hours with a `ValidationError`, but the code
prices both inputs: complexity `"extreme"` is billed with the high
multiplier (50 × 10 × 2.5 = 1250) and zero hours yield the price 0 — the
code never fails. -/
theorem pricing_rejects_nothing :
    specQuote "web" "extreme" 10
        = Except.error ValidationError.unrecognizedComplexity
    ∧ clientPrice "web" "extreme" 10 = 1250
    ∧ specQuote "web" "low" 0 = Except.error ValidationError.nonPositiveHours
    ∧ clientPrice "web" "low" 0 = 0 := by
  refine ⟨?_, ?_, ?_, ?_⟩
  · unfold specQuote
    rw [if_neg (by norm_num : ¬ (10 : ℚ) ≤ 0)]
    rfl
  · rw [clientPrice_eq]
    rw [show specBaseRate "web" = 50 from rfl,
      show clientMult "extreme" = 5 / 2 from rfl]
    norm_num
  · unfold specQuote
    rw [if_pos (le_refl (0 : ℚ))]
  · rw [clientPrice_eq]
    ring

/-- C6 amended: the pricing computation is a pure total function with no
failure modes at all — an input with hours ≤ 0 is priced by the same
formula instead of being rejected, and an unrecognized complexity is priced
with the high multiplier 2.5 instead of being rejected. -/
theorem pricing_total :
    ∀ (st c : String) (h : ℚ),
      (h ≤ 0 → clientPrice st c h = specBaseRate st * h * clientMult c)
      ∧ (specMultiplier c = none →
          clientPrice st c h = specBaseRate st * h * (5 / 2)) := by
  intro st c h
  constructor
  · intro _
    exact clientPrice_eq st c h
  · intro hn
    rw [clientPrice_eq]
    unfold specMultiplier at hn
    split_ifs at hn with h1 h2 h3
    unfold clientMult
    rw [if_neg h1, if_neg h2]

/-- Witness for `pricing_total`: both hypotheses discharged at concrete
inputs (zero hours, and the unrecognized complexity `"extreme"`). -/
theorem pricing_total_witness :
    ((0 : ℚ) ≤ 0
      ∧ clientPrice "web" "extreme" 0
          = specBaseRate "web" * 0 * clientMult "extreme")
    ∧ (specMultiplier "extreme" = none
      ∧ clientPrice "web" "extreme" 10 = specBaseRate "web" * 10 * (5 / 2)) :=
  ⟨⟨le_refl 0, (pricing_total "web" "extreme" 0).1 (le_refl 0)⟩,
    ⟨rfl, (pricing_total "web" "extreme" 10).2 rfl⟩⟩

/-- C10: every complexity other than `low` and `medium` (including
unrecognized strings) is priced with the high multiplier 2.5, and every
serviceType outside {web, design, content} gets the default base rate 20,
so the pricing computation is total. -/
theorem pricing_default_branches :
    ∀ (st c : String) (h : ℚ),
      (c ≠ "low" → c ≠ "medium" →
        clientPrice st c h = (createService st).baseRate * h * (5 / 2))
      ∧ (st ≠ "web" → st ≠ "design" → st ≠ "content" →
        (createService st).baseRate = 20) := by
  intro st c h
  constructor
  · intro h1 h2
    simp only [clientPrice, highCalculate]
    rw [if_neg h1, if_neg h2]
  · intro h1 h2 h3
    unfold createService
    rw [if_neg h1, if_neg h2, if_neg h3]

/-- Witness for `pricing_default_branches`: discharged at the unrecognized
complexity `"weird"` and the unrecognized serviceType `"misc"`. -/
theorem pricing_default_branches_witness :
    (("weird" : String) ≠ "low" ∧ ("weird" : String) ≠ "medium"
      ∧ clientPrice "misc" "weird" 4
          = (createService "misc").baseRate * 4 * (5 / 2))
    ∧ (("misc" : String) ≠ "web" ∧ ("misc" : String) ≠ "design"
      ∧ ("misc" : String) ≠ "content"
      ∧ (createService "misc").baseRate = 20) :=
  ⟨⟨by decide, by decide,
      (pricing_default_branches "misc" "weird" 4).1 (by decide) (by decide)⟩,
    ⟨by decide, by decide, by decide,
      (pricing_default_branches "misc" "weird" 4).2
        (by decide) (by decide) (by decide)⟩⟩

/-- C1 (code bug): `handleAcceptJob` performs no check-and-set.  Accepting
job 1 as Fiona and then accepting the same job again as Gary does NOT fail
with `JobNotOpen`: the second call succeeds and silently overwrites
`acceptedBy` from Fiona to Gary, violating the claimed write-once
`acceptedBy` and the Open-only transition. -/
theorem acceptJob_overwrites_acceptedBy :
    ((handleAcceptJob stOpen 1 fiona 10).bind fun st1 =>
        handleAcceptJob st1 1 gary 20).map
      (fun st => st.jobs.map fun j => (j.status, j.acceptedBy))
      = some [("Accepted", some "Gary")] := rfl

lemma confirmPayment_eq (st : AppState) (msg : Message) (now : Nat)
    (amt : ℚ) (hamt : msg.amount = some amt) :
    confirmPayment st msg now
      = some { jobs := st.jobs
               messages := paymentNotif msg now amt
                 :: st.messages.map (updatePaid msg.id) } := by
  unfold confirmPayment
  rw [hamt]

lemma updatePaid_toUser (i : Nat) (m : Message) :
    (updatePaid i m).toUser = m.toUser := by
  unfold updatePaid
  split <;> rfl

lemma updatePaid_title (i : Nat) (m : Message) :
    (updatePaid i m).title = m.title := by
  unfold updatePaid
  split <;> rfl

lemma updatePaid_of_ne (i : Nat) (m : Message) (h : ¬ m.id = i) :
    updatePaid i m = m := by
  unfold updatePaid
  rw [if_neg h]

lemma updated_all_paid (i : Nat) (l : List Message) :
    ∀ m ∈ l.map (updatePaid i), m.id = i → m.isPaid = some true := by
  intro m hm hid
  obtain ⟨m₀, _, rfl⟩ := List.mem_map.mp hm
  by_cases h0 : m₀.id = i
  · unfold updatePaid
    rw [if_pos h0]
  · rw [updatePaid_of_ne i m₀ h0] at hid ⊢
    exact absurd hid h0

lemma inbox_countP_updatePaid (u : User) (i : Nat) (l : List Message) :
    ((myMessages u (l.map (updatePaid i))).countP isPaymentReceived)
      = ((myMessages u l).countP isPaymentReceived) := by
  unfold myMessages
  induction l with
  | nil => rfl
  | cons m t ih =>
      have ht : isPaymentReceived (updatePaid i m) = isPaymentReceived m := by
        unfold isPaymentReceived
        rw [updatePaid_title]
      simp only [List.map_cons, List.filter_cons, updatePaid_toUser]
      by_cases hm : (decide (m.toUser = some u.username)
          || decide (m.toUser = some u.name)) = true
      · rw [if_pos hm, if_pos hm]
        simp only [List.countP_cons, ht, ih]
      · rw [if_neg hm, if_neg hm]
        exact ih

lemma paymentNotif_isPayment (msg : Message) (now : Nat) (amt : ℚ) :
    isPaymentReceived (paymentNotif msg now amt) = true := by
  rfl

lemma inbox_cons_of_name (u : User) (n : Message) (l : List Message)
    (hn : n.toUser = some u.name) :
    myMessages u (n :: l) = n :: myMessages u l := by
  unfold myMessages
  rw [List.filter_cons]
  rw [if_pos (by rw [hn]; simp)]

/-- C2 counterexample: the demo state holds the accepted content job and
the actionable notification for carol.  `confirmPayment` completes, but the
job's status is still `"Accepted"` — the code never sets a job to Paid. -/
theorem confirmPayment_job_stays_accepted :
    (confirmPayment paidState0 acceptMsg 20).map
      (fun st => st.jobs.map Job.status) = some ["Accepted"] := rfl

/-- C2 amended: the first `confirmPayment` on a pending actionable
notification (of a job in Accepted state) marks that notification paid and
prepends exactly one non-actionable "Payment Received" notification
carrying the paid amount to the accepting freelancer's inbox — but it
leaves the jobs store untouched, so the job stays Accepted instead of
becoming Paid. -/
theorem confirmPayment_first_confirmation :
    ∀ (st : AppState) (msg : Message) (now : Nat) (amt : ℚ) (fl : User)
      (j : Job),
      msg.amount = some amt →
      msg.freelancerName = some fl.name →
      msg.isActionable = true →
      msg.isPaid = some false →
      ¬ now = msg.id →
      j ∈ st.jobs →
      j.status = "Accepted" →
      ∃ st', confirmPayment st msg now = some st'
        ∧ st'.jobs = st.jobs
        ∧ j ∈ st'.jobs
        ∧ (∀ m ∈ st'.messages, m.id = msg.id → m.isPaid = some true)
        ∧ st'.messages
            = paymentNotif msg now amt :: st.messages.map (updatePaid msg.id)
        ∧ (paymentNotif msg now amt).isActionable = false
        ∧ (paymentNotif msg now amt).title = "Payment Received! 💰"
        ∧ (paymentNotif msg now amt).text = paymentText amt msg.jobTitle
        ∧ (paymentNotif msg now amt).toUser = some fl.name
        ∧ ((myMessages fl st'.messages).countP isPaymentReceived)
            = ((myMessages fl st.messages).countP isPaymentReceived) + 1 := by
  intro st msg now amt fl j hamt hfl _ _ hnow hj _
  refine ⟨_, confirmPayment_eq st msg now amt hamt, rfl, hj, ?_, rfl,
    rfl, rfl, rfl, hfl, ?_⟩
  · intro m hm hid
    rcases List.mem_cons.mp hm with hhead | htail
    · rw [hhead] at hid
      exact absurd hid hnow
    · exact updated_all_paid msg.id st.messages m htail hid
  · rw [inbox_cons_of_name fl _ _ hfl]
    rw [List.countP_cons_of_pos _ _ (paymentNotif_isPayment msg now amt)]
    rw [inbox_countP_updatePaid]

/-- Witness for `confirmPayment_first_confirmation`: every hypothesis
discharged at the concrete post-acceptance demo state. -/
theorem confirmPayment_first_confirmation_witness :
    acceptMsg.amount = some 375
    ∧ acceptMsg.freelancerName = some fiona.name
    ∧ acceptMsg.isActionable = true
    ∧ acceptMsg.isPaid = some false
    ∧ ¬ (20 : Nat) = acceptMsg.id
    ∧ acceptedContentJob ∈ paidState0.jobs
    ∧ acceptedContentJob.status = "Accepted"
    ∧ ∃ st', confirmPayment paidState0 acceptMsg 20 = some st'
        ∧ st'.jobs = paidState0.jobs
        ∧ acceptedContentJob ∈ st'.jobs
        ∧ (∀ m ∈ st'.messages, m.id = acceptMsg.id → m.isPaid = some true)
        ∧ st'.messages = paymentNotif acceptMsg 20 375
            :: paidState0.messages.map (updatePaid acceptMsg.id)
        ∧ (paymentNotif acceptMsg 20 375).isActionable = false
        ∧ (paymentNotif acceptMsg 20 375).title = "Payment Received! 💰"
        ∧ (paymentNotif acceptMsg 20 375).text
            = paymentText 375 acceptMsg.jobTitle
        ∧ (paymentNotif acceptMsg 20 375).toUser = some fiona.name
        ∧ ((myMessages fiona st'.messages).countP isPaymentReceived)
            = ((myMessages fiona paidState0.messages).countP
                isPaymentReceived) + 1 :=
  ⟨rfl, rfl, rfl, rfl, by decide, List.mem_singleton.mpr rfl, rfl,
    confirmPayment_first_confirmation paidState0 acceptMsg 20 375 fiona
      acceptedContentJob rfl rfl rfl rfl (by decide)
      (List.mem_singleton.mpr rfl) rfl⟩

/-- C3 counterexample: calling `confirmPayment` twice on the same intent is
not a no-op — after the second call the freelancer's inbox holds TWO
"Payment Received" notifications for that intent, not one. -/
theorem confirmPayment_twice_two_notifications :
    ((confirmPayment paidState0 acceptMsg 20).bind fun st1 =>
        confirmPayment st1 acceptMsg 30).map
      (fun st => (myMessages fiona st.messages).countP isPaymentReceived)
      = some 2 := rfl

/-- C3 amended: `confirmPayment` is idempotent on the `isPaid` flag and on
the jobs store, but the second call on the same intent is not a no-op: each
call prepends a fresh "Payment Received" notification, so two calls leave
two such notifications in the freelancer's inbox. -/
theorem confirmPayment_second_call_effects :
    ∀ (st : AppState) (msg : Message) (amt : ℚ) (fl : User) (n1 n2 : Nat),
      msg.amount = some amt →
      msg.freelancerName = some fl.name →
      ¬ n1 = msg.id →
      ¬ n2 = msg.id →
      ∃ st1 st2, confirmPayment st msg n1 = some st1
        ∧ confirmPayment st1 msg n2 = some st2
        ∧ st2.jobs = st.jobs
        ∧ (∀ m ∈ st2.messages, m.id = msg.id → m.isPaid = some true)
        ∧ ((myMessages fl st2.messages).countP isPaymentReceived)
            = ((myMessages fl st.messages).countP isPaymentReceived) + 2 := by
  intro st msg amt fl n1 n2 hamt hfl hn1 hn2
  refine ⟨_, _, confirmPayment_eq st msg n1 amt hamt,
    confirmPayment_eq _ msg n2 amt hamt, rfl, ?_, ?_⟩
  · intro m hm hid
    rcases List.mem_cons.mp hm with hhead | htail
    · rw [hhead] at hid
      exact absurd hid hn2
    · exact updated_all_paid msg.id _ m htail hid
  · rw [inbox_cons_of_name fl _ _ hfl]
    rw [List.countP_cons_of_pos _ _ (paymentNotif_isPayment msg n2 amt)]
    rw [inbox_countP_updatePaid]
    rw [inbox_cons_of_name fl _ _ hfl]
    rw [List.countP_cons_of_pos _ _ (paymentNotif_isPayment msg n1 amt)]
    rw [inbox_countP_updatePaid]

/-- Witness for `confirmPayment_second_call_effects`: hypotheses discharged
at the concrete demo state with timestamps 20 and 30. -/
theorem confirmPayment_second_call_effects_witness :
    acceptMsg.amount = some 375
    ∧ acceptMsg.freelancerName = some fiona.name
    ∧ ¬ (20 : Nat) = acceptMsg.id
    ∧ ¬ (30 : Nat) = acceptMsg.id
    ∧ ∃ st1 st2, confirmPayment paidState0 acceptMsg 20 = some st1
        ∧ confirmPayment st1 acceptMsg 30 = some st2
        ∧ st2.jobs = paidState0.jobs
        ∧ (∀ m ∈ st2.messages, m.id = acceptMsg.id → m.isPaid = some true)
        ∧ ((myMessages fiona st2.messages).countP isPaymentReceived)
            = ((myMessages fiona paidState0.messages).countP
                isPaymentReceived) + 2 :=
  ⟨rfl, rfl, by decide, by decide,
    confirmPayment_second_call_effects paidState0 acceptMsg 375 fiona 20 30
      rfl rfl (by decide) (by decide)⟩

/-- C9 (code bug): on a jobId with no matching job, `handleAcceptJob`
reaches the `undefined` dereference (modelled `none`) — a `TypeError`
crash instead of a recoverable `JobNotFound` — while the jobs update it
computed first leaves the stored jobs unchanged. -/
theorem acceptJob_missing_id_crash :
    handleAcceptJob stOpen 999 gary 20 = none
    ∧ stOpen.jobs.map (acceptUpdate 999 gary) = stOpen.jobs :=
  ⟨rfl, rfl⟩

/-- C7: messages are kept newest first.  If the mailbox is sorted by
descending id and the fresh `Date.now()` timestamp dominates every stored
id, then after a successful `handleAcceptJob` the mailbox is still sorted,
the poster's inbox starts with the new actionable notification carrying the
job's price as amount, and the filtered inbox stays sorted newest first. -/
theorem inbox_newest_first_after_accept :
    ∀ (st : AppState) (jobId now : Nat) (fl p : User) (job : Job),
      st.jobs.find? (fun j => j.id == jobId) = some job →
      p.username = job.postedBy →
      (∀ m ∈ st.messages, m.id ≤ now) →
      List.Pairwise (fun a b : Message => b.id ≤ a.id) st.messages →
      ∃ st', handleAcceptJob st jobId fl now = some st'
        ∧ st'.messages = acceptNotif job fl now :: st.messages
        ∧ (acceptNotif job fl now).id = now
        ∧ (acceptNotif job fl now).isActionable = true
        ∧ (acceptNotif job fl now).amount = some job.total
        ∧ (acceptNotif job fl now).toUser = some job.postedBy
        ∧ myMessages p st'.messages
            = acceptNotif job fl now :: myMessages p st.messages
        ∧ List.Pairwise (fun a b : Message => b.id ≤ a.id) st'.messages
        ∧ List.Pairwise (fun a b : Message => b.id ≤ a.id)
            (myMessages p st'.messages) := by
  intro st jobId now fl p job hfind hp hbound hpw
  have heq : handleAcceptJob st jobId fl now
      = some { jobs := st.jobs.map (acceptUpdate jobId fl)
               messages := acceptNotif job fl now :: st.messages } := by
    unfold handleAcceptJob
    rw [hfind]
  have hsorted : List.Pairwise (fun a b : Message => b.id ≤ a.id)
      (acceptNotif job fl now :: st.messages) :=
    List.pairwise_cons.mpr ⟨fun b hb => hbound b hb, hpw⟩
  refine ⟨_, heq, rfl, rfl, rfl, rfl, rfl, ?_, hsorted, ?_⟩
  · unfold myMessages
    rw [List.filter_cons]
    rw [if_pos ?_]
    show (decide ((acceptNotif job fl now).toUser = some p.username)
        || decide ((acceptNotif job fl now).toUser = some p.name)) = true
    have : (acceptNotif job fl now).toUser = some p.username := by
      show some job.postedBy = some p.username
      rw [hp]
    rw [this]
    simp
  · exact List.Pairwise.sublist (List.filter_sublist _) hsorted

/-- Witness for `inbox_newest_first_after_accept`: hypotheses discharged at
the concrete state, with timestamp 10 newer than the stored id 5. -/
theorem inbox_newest_first_after_accept_witness :
    stWithOld.jobs.find? (fun j => j.id == 1) = some contentJob
    ∧ carol.username = contentJob.postedBy
    ∧ (∀ m ∈ stWithOld.messages, m.id ≤ 10)
    ∧ List.Pairwise (fun a b : Message => b.id ≤ a.id) stWithOld.messages
    ∧ ∃ st', handleAcceptJob stWithOld 1 fiona 10 = some st'
        ∧ st'.messages = acceptNotif contentJob fiona 10
            :: stWithOld.messages
        ∧ (acceptNotif contentJob fiona 10).id = 10
        ∧ (acceptNotif contentJob fiona 10).isActionable = true
        ∧ (acceptNotif contentJob fiona 10).amount = some contentJob.total
        ∧ (acceptNotif contentJob fiona 10).toUser = some contentJob.postedBy
        ∧ myMessages carol st'.messages
            = acceptNotif contentJob fiona 10
              :: myMessages carol stWithOld.messages
        ∧ List.Pairwise (fun a b : Message => b.id ≤ a.id) st'.messages
        ∧ List.Pairwise (fun a b : Message => b.id ≤ a.id)
            (myMessages carol st'.messages) :=
  ⟨rfl, rfl, by decide, by simp [stWithOld],
    inbox_newest_first_after_accept stWithOld 1 10 fiona carol contentJob
      rfl rfl (by decide) (by simp [stWithOld])⟩

/-- C8 counterexample: fiona's username is `"fiona"`, yet a notification
whose `toUser` is her display name `"Fiona"` is delivered to her inbox —
`myMessages` matches by display name, not by a single stable identity
key. -/
theorem inbox_delivers_by_display_name :
    myMessages fiona [notifByName] = [notifByName]
    ∧ ¬ notifByName.toUser = some fiona.username :=
  ⟨rfl, by decide⟩

/-- C8 amended: `myMessages` matches recipients by TWO keys: a user's inbox
contains exactly the stored notifications (kept in order, as a sublist)
whose `toUser` equals the user's username OR the user's display name. -/
theorem inbox_dual_key_matching :
    ∀ (u : User) (msgs : List Message) (m : Message),
      (m ∈ myMessages u msgs
        ↔ m ∈ msgs
          ∧ (m.toUser = some u.username ∨ m.toUser = some u.name))
      ∧ (myMessages u msgs).Sublist msgs := by
  intro u msgs m
  constructor
  · unfold myMessages
    rw [List.mem_filter]
    simp
  · exact List.filter_sublist msgs

end GigLink
